import Mathlib

/-!
Verification of the smriti-demo WebSocket proxy and client hooks.

A shallow embedding of the state-machine and data-transformation logic of the
smriti-demo repository, together with proofs about it:

* the client WebSocket hook (`apps/web/hooks/useWebSocket.ts`): reconnect
  scheduling and exponential backoff;
* the client message hook (`apps/web/hooks/useOpenAIMessages.ts`): message
  status lifecycle and `sendTextMessage` validation;
* the audio capture/playback PCM16 + base64 codec
  (`apps/web/hooks/useRealTimeAudio.ts`, `apps/web/hooks/useAudioPlayer.ts`);
* the server session registry (`apps/ws-server/src/services/session.ts`);
* the server connection gateway and message router
  (`apps/ws-server/src/handlers/connection.ts`,
  `apps/ws-server/src/handlers/message-handlers.ts`);
* the upstream realtime client (`OpenAIRealtimeService`).

JavaScript numbers that only ever hold integer millisecond timestamps, close
codes or counters are modelled as `Nat`/`Int`; audio samples are modelled as
rationals (`ℚ`); fresh-identifier generation (`Date.now()` + randomness in the
source) is modelled by a monotone counter, preserving exactly the property the
code relies on (freshness).
-/

namespace Smriti

/-! Section: Client WebSocket hook (`useWebSocket.ts`) -/

/-- Connection status values of the hook (`WSConnectionStatus`). -/
inductive WSStatus where
  | connecting
  | connected
  | disconnected
  | reconnecting
  | wsError
  deriving DecidableEq, Repr

/-- The `CONNECTION_CONFIG.RECONNECT_ATTEMPTS` from `constants.ts`. -/
def RECONNECT_ATTEMPTS : Nat := 5

/-- The `CONNECTION_CONFIG.RECONNECT_INTERVAL` (ms) from `constants.ts`. -/
def RECONNECT_INTERVAL : Nat := 2000

/-- The `permanentErrorCodes` array in `ws.onclose` of `useWebSocket.ts`:
`[1002, 1003, 1005]`. -/
def permanentErrorCodes : List Nat := [1002, 1003, 1005]

/-- The mutable state of the `useWebSocket` hook that the `onclose`/`onopen`
handlers read and write: `connectionStatus`, `reconnectAttemptsRef`,
`isManualDisconnectRef`, the `error` state and the pending reconnect timeout
(represented by the delay it was scheduled with). -/
structure WSHookState where
  connectionStatus : WSStatus
  reconnectAttempts : Nat
  isManualDisconnect : Bool
  errorMsg : Option String
  pendingReconnectDelay : Option Nat
  deriving DecidableEq, Repr

/-- The `shouldReconnect` condition computed in `ws.onclose`:
not manually disconnected, attempts below `RECONNECT_ATTEMPTS`, and the close
code not in `permanentErrorCodes`. -/
def shouldReconnect (s : WSHookState) (code : Nat) : Bool :=
  !s.isManualDisconnect
    && decide (s.reconnectAttempts < RECONNECT_ATTEMPTS)
    && !(permanentErrorCodes.contains code)

/-- The `ws.onclose` handler of `useWebSocket.ts`: sets status `disconnected`,
then, when `shouldReconnect` holds, enters `reconnecting`, increments the
attempt counter and schedules a reconnect after
`min(RECONNECT_INTERVAL * 2^(attempts-1), 30000)` ms; otherwise, when the
attempt budget is exhausted, records the terminal error message. -/
def wsOnClose (s : WSHookState) (code : Nat) : WSHookState :=
  let s1 : WSHookState := { s with connectionStatus := .disconnected }
  if shouldReconnect s code then
    let attempts := s.reconnectAttempts + 1
    { s1 with
        connectionStatus := .reconnecting
        reconnectAttempts := attempts
        pendingReconnectDelay :=
          some (min (RECONNECT_INTERVAL * 2 ^ (attempts - 1)) 30000) }
  else if RECONNECT_ATTEMPTS ≤ s.reconnectAttempts then
    { s1 with errorMsg := some ("Connection failed after multiple attempts") }
  else
    s1

/-- The `ws.onopen` handler of `useWebSocket.ts`: status `connected`, error
cleared, attempt counter reset to `0`, pending reconnect timeout cleared. -/
def wsOnOpen (s : WSHookState) : WSHookState :=
  { s with
      connectionStatus := .connected
      errorMsg := none
      reconnectAttempts := 0
      pendingReconnectDelay := none }

/-! Section: Server session registry (`services/session.ts`) -/

/-- The `Session` from the ws-server types: session ids are modelled as the `Nat`
counter that stands in for the generated `sess_<time>_<random>` strings. -/
structure Session where
  id : Nat
  userId : String
  connectionId : String
  createdAt : Nat
  lastActivity : Nat
  deriving DecidableEq, Repr

/-- The `SessionService` state: the `sessions : Map<string, Session>` plus the
id-generation counter. -/
structure SessionService where
  sessions : List (Nat × Session)
  nextId : Nat
  deriving DecidableEq, Repr

/-- The `sessionTimeout` of `SessionService`: 30 minutes in milliseconds. -/
def sessionTimeout : Nat := 30 * 60 * 1000

/-- The `SessionService.isSessionExpired`: `now - lastActivity > sessionTimeout`,
with JavaScript's signed subtraction modelled on `Int`. -/
def isSessionExpired (now : Nat) (s : Session) : Bool :=
  decide ((now : Int) - (s.lastActivity : Int) > (sessionTimeout : Int))

/-- The `Map.get` on the session map. -/
def lookupSession (svc : SessionService) (sid : Nat) : Option Session :=
  (svc.sessions.find? (fun p => p.1 == sid)).map (·.2)

/-- The `SessionService.createSession`: allocates a fresh id and stores an active
session with `createdAt = lastActivity = now`. -/
def createSession (svc : SessionService) (userId connectionId : String)
    (now : Nat) : Nat × SessionService :=
  let sid := svc.nextId
  let s : Session := ⟨sid, userId, connectionId, now, now⟩
  (sid, { sessions := svc.sessions ++ [(sid, s)], nextId := svc.nextId + 1 })

/-- The `SessionService.endSession`: removes the session from the map (the status
mutation on the removed object is unobservable afterwards). -/
def endSession (svc : SessionService) (sid : Nat) : SessionService :=
  { svc with sessions := svc.sessions.filter (fun p => !(p.1 == sid)) }

/-- The `SessionService.getSession`: `null` when absent; when present but expired,
ends the session and returns `null`; otherwise returns the stored session.
Returns the result together with the (possibly mutated) service state. -/
def getSession (svc : SessionService) (now : Nat) (sid : Nat) :
    Option Session × SessionService :=
  match lookupSession svc sid with
  | none => (none, svc)
  | some s =>
    if isSessionExpired now s then (none, endSession svc sid)
    else (some s, svc)

/-! Section: Server connection gateway (`handlers/connection.ts`, connection-utils) -/

/-- Frames the server sends to a client (`handlers` and `connection-utils`). -/
inductive OutFrame where
  | welcome (sessionId : Nat)
  | errorMsg (message : String)
  | pong
  deriving DecidableEq, Repr

/-- The `ConnectionContext` from the ws-server types. -/
structure ConnectionContext where
  sessionId : Nat
  userId : String
  authenticated : Bool
  deriving DecidableEq, Repr

/-- The process-wide mutable server state: the session registry plus the
`openaiServices` map (keyed by session id; only the key set matters here) and
the `connectionContexts` map (keyed by the socket, modelled as a `Nat`
connection id). -/
structure ServerState where
  sessionSvc : SessionService
  openaiServices : List Nat
  connectionContexts : List (Nat × ConnectionContext)
  deriving DecidableEq, Repr

/-- Result of running `setupAuthenticatedConnection`: the new server state,
the frames sent on the inbound socket, the close code passed to `ws.close`
(if any), and whether the `message`/`close`/`error` handlers were registered
on the socket (done by `setupWebSocketHandlers`, which runs only after
`openaiService.connect()` resolves). -/
structure SetupResult where
  state : ServerState
  sentFrames : List OutFrame
  closeCode : Option Nat
  handlersRegistered : Bool
  deriving DecidableEq, Repr

/-- The `setupAuthenticatedConnection` from `handlers/connection.ts`.

It first stores the connection context and the fresh `OpenAIRealtimeService`
in the process-wide maps, then awaits `openaiService.connect()`; `connectOk`
is the outcome of that await. On success it registers the socket handlers and
sends the welcome frame; on failure the `catch` block sends an error frame and
closes the socket with code 1011 — and performs no cleanup of the maps or the
session registry (the `close` handler that would do so is never registered on
this path). -/
def setupAuthenticatedConnection (st : ServerState) (connId : Nat)
    (ctx : ConnectionContext) (connectOk : Bool) : SetupResult :=
  let st1 : ServerState :=
    { st with connectionContexts := st.connectionContexts ++ [(connId, ctx)] }
  let st2 : ServerState :=
    { st1 with openaiServices := st1.openaiServices ++ [ctx.sessionId] }
  if connectOk then
    { state := st2
      sentFrames := [.welcome ctx.sessionId]
      closeCode := none
      handlersRegistered := true }
  else
    { state := st2
      sentFrames := [.errorMsg ("Failed to initialize AI service")]
      closeCode := some 1011
      handlersRegistered := false }

/-- The `authenticateConnection` from connection-utils, token-less branch: creates
a demo session in the registry and returns the connection context. -/
def authenticateDemoConnection (st : ServerState) (connId : Nat) (now : Nat) :
    ServerState × ConnectionContext :=
  let userId := "demo_user"
  let (sid, svc) := createSession st.sessionSvc userId (toString connId) now
  ({ st with sessionSvc := svc },
   { sessionId := sid, userId := userId, authenticated := false })

/-- The token-less `handleConnection` flow: authenticate (creating a session),
then `setupAuthenticatedConnection` with upstream-connect outcome
`connectOk`. -/
def handleConnectionFlow (st : ServerState) (connId : Nat) (now : Nat)
    (connectOk : Bool) : SetupResult :=
  let (st1, ctx) := authenticateDemoConnection st connId now
  setupAuthenticatedConnection st1 connId ctx connectOk

/-- The `handleDisconnection` from connection-utils: disconnect and drop the
upstream service, end the session, remove the connection context. -/
def handleDisconnection (st : ServerState) (connId : Nat)
    (ctx : ConnectionContext) : ServerState :=
  { st with
      openaiServices := st.openaiServices.filter (fun x => !(x == ctx.sessionId))
      sessionSvc := endSession st.sessionSvc ctx.sessionId
      connectionContexts :=
        st.connectionContexts.filter (fun p => !(p.1 == connId)) }

/-! Section: Server message router (`handlers/message-handlers.ts`) -/

/-- A parsed client frame payload. Only the fields the router inspects are
kept: the upstream event type (for `openai_event` forwarding), and the
`text` / `audio` fields used by the legacy handlers. `Option` + the
`strTruthy` test models JavaScript's truthiness checks (`undefined`, missing
and `""` are all falsy). -/
structure ClientPayload where
  eventType : String
  text : Option String
  audio : Option String
  deriving DecidableEq, Repr

/-- An inbound client frame: either not valid JSON, or a parsed object with a
`type` and an optional (truthy) `payload`. -/
inductive ClientFrame where
  | malformed
  | frame (ty : String) (payload : Option ClientPayload)
  deriving DecidableEq, Repr

/-- JavaScript truthiness of an optional string: present and non-empty. -/
def strTruthy : Option String → Bool
  | some s => !s.isEmpty
  | none => false

/-- Result of `handleMessage` on one inbound frame: frames sent back to the
client, upstream event types forwarded via `openaiService.sendEvent`, whether
the inbound socket was closed, whether the session was ended, and whether
`sessionService.updateActivity` ran. -/
structure HandleResult where
  replies : List OutFrame
  forwarded : List String
  closed : Bool
  sessionEnded : Bool
  activityTouched : Bool
  deriving DecidableEq, Repr

/-- The `handleLegacyMessage`: legacy types translate into upstream events via the
`OpenAIRealtimeService` helpers, each of which calls `sendEvent`, which throws
when the upstream link is not connected (`isConnected` false); that throw is
caught by the legacy `catch`, replying `Failed to process <type>`. A default
(unknown) type replies `Unknown message type: <type>`. -/
def handleLegacyMessage (upConnected : Bool) (ty : String)
    (payload : Option ClientPayload) : HandleResult :=
  if ty == "text_message" then
    if strTruthy (payload.bind (·.text)) then
      if upConnected then
        { replies := [], forwarded := ["conversation.item.create", "response.create"],
          closed := false, sessionEnded := false, activityTouched := true }
      else
        { replies := [.errorMsg ("Failed to process text_message")], forwarded := [],
          closed := false, sessionEnded := false, activityTouched := true }
    else
      { replies := [], forwarded := [], closed := false, sessionEnded := false,
        activityTouched := true }
  else if ty == "audio_data" then
    if strTruthy (payload.bind (·.audio)) then
      if upConnected then
        { replies := [], forwarded := ["input_audio_buffer.append"],
          closed := false, sessionEnded := false, activityTouched := true }
      else
        { replies := [.errorMsg ("Failed to process audio_data")], forwarded := [],
          closed := false, sessionEnded := false, activityTouched := true }
    else
      { replies := [], forwarded := [], closed := false, sessionEnded := false,
        activityTouched := true }
  else if ty == "audio_commit" then
    if upConnected then
      { replies := [], forwarded := ["input_audio_buffer.commit", "response.create"],
        closed := false, sessionEnded := false, activityTouched := true }
    else
      { replies := [.errorMsg ("Failed to process audio_commit")], forwarded := [],
        closed := false, sessionEnded := false, activityTouched := true }
  else if ty == "audio_clear" then
    if upConnected then
      { replies := [], forwarded := ["input_audio_buffer.clear"],
        closed := false, sessionEnded := false, activityTouched := true }
    else
      { replies := [.errorMsg ("Failed to process audio_clear")], forwarded := [],
        closed := false, sessionEnded := false, activityTouched := true }
  else
    { replies := [.errorMsg ("Unknown message type: " ++ ty)], forwarded := [],
      closed := false, sessionEnded := false, activityTouched := true }

/-- The `handleMessage` from `handlers/message-handlers.ts`.

`upConnected` is the `isConnected` state of the per-session
`OpenAIRealtimeService`: `sendEvent` throws when it is false, and that
exception is caught by the outer `catch`, which replies with the same
`Invalid message format` error frame used for JSON parse failures. Malformed
JSON never reaches the activity update. The connection is never closed and the
session never ended by this handler. -/
def handleMessage (upConnected : Bool) (f : ClientFrame) : HandleResult :=
  match f with
  | .malformed =>
    { replies := [.errorMsg ("Invalid message format")], forwarded := [],
      closed := false, sessionEnded := false, activityTouched := false }
  | .frame ty payload =>
    if ty == "ping" then
      { replies := [.pong], forwarded := [], closed := false,
        sessionEnded := false, activityTouched := true }
    else if ty == "openai_event" && payload.isSome then
      if upConnected then
        { replies := [],
          forwarded := [(payload.map (·.eventType)).getD ("")],
          closed := false, sessionEnded := false, activityTouched := true }
      else
        { replies := [.errorMsg ("Invalid message format")], forwarded := [],
          closed := false, sessionEnded := false, activityTouched := true }
    else
      handleLegacyMessage upConnected ty payload

/-! Section: Client message hook (`useOpenAIMessages.ts`) -/

/-- The `OpenAIMessage.status`. -/
inductive MsgStatus where
  | sending
  | sent
  | receiving
  | completed
  | msgError
  deriving DecidableEq, Repr

/-- The `OpenAIMessage.sender`. -/
inductive Sender where
  | user
  | ai
  deriving DecidableEq, Repr

/-- A conversation message (`OpenAIMessage` in `useOpenAIMessages.ts`); the
generated `msg_<time>_<random>` ids are modelled by the `Nat` counter of
`MsgState`. -/
structure OpenAIMessage where
  id : Nat
  content : String
  sender : Sender
  status : MsgStatus
  deriving DecidableEq, Repr

/-- The `currentAIResponseRef.current`. -/
structure CurrentAIResponse where
  id : Nat
  content : String
  responseId : String
  itemId : String
  deriving DecidableEq, Repr

/-- The state of the `useOpenAIMessages` hook: `messages`, `isAIResponding`,
the streaming-response ref, and the fresh-id counter standing in for
`generateMessageId`. -/
structure MsgState where
  messages : List OpenAIMessage
  isAIResponding : Bool
  currentAIResponse : Option CurrentAIResponse
  nextId : Nat
  deriving DecidableEq, Repr

/-- The `addMessage`: appends to the message array. -/
def addMessage (st : MsgState) (m : OpenAIMessage) : MsgState :=
  { st with messages := st.messages ++ [m] }

/-- The `updateMessage`: maps over the array, merging the given partial update
into every message with a matching id (`none` fields are left unchanged). -/
def updateMessage (st : MsgState) (mid : Nat) (newContent : Option String)
    (newStatus : Option MsgStatus) : MsgState :=
  { st with
      messages := st.messages.map (fun m =>
        if m.id == mid then
          { m with
              content := newContent.getD m.content
              status := newStatus.getD m.status }
        else m) }

/-- The OpenAI Realtime events `handleOpenAIEvent` dispatches on, with the
fields each case reads (`Option` models possibly-absent fields). -/
inductive OAIEvent where
  | responseCreated
  | outputItemAdded (role : Option String) (itemId : Option String)
      (responseId : Option String)
  | textDelta (delta : Option String)
  | textDone (text : Option String)
  | audioDelta (delta : Option String)
  | audioDone
  | transcriptDelta (delta : Option String)
  | transcriptDone (transcript : Option String)
  | speechStarted
  | speechStopped
  | bufferCommitted
  | bufferCleared
  | responseDone
  | errorEvent (message : Option String)
  | rateLimitsUpdated
  | sessionCreatedEvt
  | sessionUpdatedEvt
  | unknownEvt (ty : String)
  deriving DecidableEq, Repr

/-- The `handleOpenAIEvent` from `useOpenAIMessages.ts`, as a pure transition on
the hook state. Cases that only fire callbacks or log (`response.audio.delta`,
speech/buffer notifications, rate limits, session events, unknown events)
leave the state unchanged. Truthiness tests on `event.delta` / `event.text` /
`event.transcript` follow JavaScript (`""` is falsy, via `strTruthy`). -/
def handleOpenAIEvent (st : MsgState) (e : OAIEvent) : MsgState :=
  match e with
  | .responseCreated => { st with isAIResponding := true }
  | .outputItemAdded role itemId responseId =>
    if role == some ("assistant") then
      let aiId := st.nextId
      let st1 : MsgState :=
        { st with
            nextId := st.nextId + 1
            currentAIResponse :=
              some ⟨aiId, "", responseId.getD (""), itemId.getD ("")⟩ }
      addMessage st1 ⟨aiId, "", .ai, .receiving⟩
    else st
  | .textDelta d =>
    match st.currentAIResponse with
    | some c =>
      if strTruthy d then
        let c1 : CurrentAIResponse := { c with content := c.content ++ d.getD ("") }
        updateMessage { st with currentAIResponse := some c1 } c.id
          (some c1.content) (some .receiving)
      else st
    | none => st
  | .textDone t =>
    match st.currentAIResponse with
    | some c =>
      if strTruthy t then updateMessage st c.id t (some .completed) else st
    | none => st
  | .audioDelta _ => st
  | .audioDone => st
  | .transcriptDelta d =>
    match st.currentAIResponse with
    | some c =>
      if strTruthy d then
        let c1 : CurrentAIResponse := { c with content := c.content ++ d.getD ("") }
        updateMessage { st with currentAIResponse := some c1 } c.id
          (some c1.content) (some .receiving)
      else st
    | none => st
  | .transcriptDone t =>
    match st.currentAIResponse with
    | some c =>
      if strTruthy t then updateMessage st c.id t (some .completed) else st
    | none => st
  | .speechStarted => st
  | .speechStopped => st
  | .bufferCommitted => st
  | .bufferCleared => st
  | .responseDone =>
    let st1 : MsgState := { st with isAIResponding := false }
    match st.currentAIResponse with
    | some c =>
      updateMessage { st1 with currentAIResponse := none } c.id none
        (some .completed)
    | none => st1
  | .errorEvent _ =>
    let st1 : MsgState := { st with isAIResponding := false }
    match st.currentAIResponse with
    | some c =>
      let content := if c.content.isEmpty then ("Error generating response") else c.content
      updateMessage { st1 with currentAIResponse := none } c.id (some content)
        (some .msgError)
    | none => st1
  | .rateLimitsUpdated => st
  | .sessionCreatedEvt => st
  | .sessionUpdatedEvt => st
  | .unknownEvt _ => st

/-- The status of the message at position `i` of the array. -/
def statusAt (st : MsgState) (i : Nat) : Option MsgStatus :=
  (st.messages[i]?).map (·.status)

/-- Whether `currentAIResponseRef` points at the message at position `i`
(the only messages `updateMessage` call sites can touch). -/
def targetsCurrent (st : MsgState) (i : Nat) : Bool :=
  match st.currentAIResponse, st.messages[i]? with
  | some c, some m => m.id == c.id
  | _, _ => false

/-- Events whose handler case rewrites the current message back to
`receiving`: a truthy `response.text.delta` or
`response.audio_transcript.delta`. -/
def isStreamingDelta : OAIEvent → Bool
  | .textDelta d => strTruthy d
  | .transcriptDelta d => strTruthy d
  | _ => false

/-- Whether the event is the OpenAI `error` event. -/
def isErrorEvt : OAIEvent → Bool
  | .errorEvent _ => true
  | _ => false

/-- Observable actions of `sendTextMessage`, in execution order: appending a
message to the array, a `sendWebSocketMessage` call carrying the given
upstream event type, a status update, firing the `onError` callback, setting
the AI-responding flag. -/
inductive ClientAction where
  | appendMsg (m : OpenAIMessage)
  | wsSend (eventType : String)
  | setStatus (id : Nat) (s : MsgStatus)
  | errorCb (msg : String)
  | setResponding (b : Bool)
  deriving DecidableEq, Repr

/-- The `sendTextMessage` from `useOpenAIMessages.ts`. `ok1`/`ok2` are the return
values of the two `sendWebSocketMessage` calls (conversation item, then
response request). Returns the new hook state together with the ordered trace
of observable actions. -/
def sendTextMessage (st : MsgState) (ok1 ok2 : Bool) (text : String) :
    MsgState × List ClientAction :=
  if text.trim.isEmpty then
    (st, [.errorCb ("Message cannot be empty")])
  else if 1000 < text.length then
    (st, [.errorCb ("Message is too long. Please keep it under 1000 characters.")])
  else
    let mid := st.nextId
    let userMsg : OpenAIMessage := ⟨mid, text.trim, .user, .sending⟩
    let st1 : MsgState := { addMessage st userMsg with nextId := st.nextId + 1 }
    if ok1 then
      let st2 := updateMessage st1 mid none (some .sent)
      if ok2 then
        ({ st2 with isAIResponding := true },
         [.appendMsg userMsg, .wsSend ("conversation.item.create"),
          .setStatus mid .sent, .wsSend ("response.create"), .setResponding true])
      else
        (updateMessage st2 mid none (some .msgError),
         [.appendMsg userMsg, .wsSend ("conversation.item.create"),
          .setStatus mid .sent, .wsSend ("response.create"),
          .setStatus mid .msgError, .errorCb ("Failed to request AI response")])
    else
      (updateMessage st1 mid none (some .msgError),
       [.appendMsg userMsg, .wsSend ("conversation.item.create"),
        .setStatus mid .msgError, .errorCb ("Failed to send message to server")])

/-- Whether a trace action appends a message. -/
def isAppendAction : ClientAction → Bool
  | .appendMsg _ => true
  | _ => false

/-- Whether a trace action is a `sendWebSocketMessage` call. -/
def isSendAction : ClientAction → Bool
  | .wsSend _ => true
  | _ => false

/-- Whether a trace action fires the `onError` callback. -/
def isErrorCbAction : ClientAction → Bool
  | .errorCb _ => true
  | _ => false

/-! Section: Client audio capture (`useRealTimeAudio.ts`) and upstream client
(`OpenAIRealtimeService`) lifecycle -/

/-- The `AudioState` of `useRealTimeAudio.ts`. -/
inductive AudioState where
  | idle
  | requestingPermission
  | capturing
  | audioError
  deriving DecidableEq, Repr

/-- The capture-pipeline resources and state the `stopCapture`/`cleanup` pair
reads and writes: the media stream, audio context, analyser, processor and
animation-frame handles (held or not), the audio level, and `audioState`. -/
structure CaptureState where
  audioState : AudioState
  stream : Bool
  audioContext : Bool
  analyser : Bool
  processor : Bool
  animationFrame : Bool
  audioLevel : Nat
  deriving DecidableEq, Repr

/-- The `cleanup` from `useRealTimeAudio.ts`: releases every held resource and
resets the audio level. -/
def cleanup (s : CaptureState) : CaptureState :=
  { s with
      animationFrame := false
      stream := false
      audioContext := false
      analyser := false
      processor := false
      audioLevel := 0 }

/-- The `stopCapture`: an early-returning no-op unless currently `capturing`;
otherwise runs `cleanup` and returns to `idle`. No path throws. -/
def stopCapture (s : CaptureState) : CaptureState :=
  if s.audioState ≠ .capturing then s
  else { cleanup s with audioState := .idle }

/-- The internal state of `OpenAIRealtimeService` that `disconnect` touches:
the upstream socket (held or not), `isConnected`, and the remembered upstream
session id. -/
structure RealtimeClientState where
  ws : Bool
  isConnected : Bool
  sessionId : Option String
  deriving DecidableEq, Repr

/-- The `OpenAIRealtimeService.disconnect`: a no-op when the socket is already
gone; otherwise closes it and resets `isConnected` and `sessionId`. No path
throws. -/
def disconnect (s : RealtimeClientState) : RealtimeClientState :=
  if s.ws then { ws := false, isConnected := false, sessionId := none }
  else s

/-! Section: PCM16 audio codec (`useRealTimeAudio.ts` / `useAudioPlayer.ts`)

The capture side (`convertToPCM16`) clamps each float sample to `[-1, 1]`,
scales (negative samples by `0x8000`, non-negative by `0x7FFF`), stores the
result with `DataView.setInt16` (little-endian, truncation toward zero, then
two's complement), and base64-encodes the bytes with `btoa`. The playback side
(`decodeAudioData`) base64-decodes with `atob`, reads each pair with
`DataView.getInt16` (little-endian) and divides by the matching scale factor.
Samples are modelled as rationals; `btoa`/`atob` are the standard base64
codec on byte sequences. -/

/-- The 64-character base64 alphabet used by `btoa`/`atob`. -/
def base64Alphabet : List Char :=
  ['A', 'B', 'C', 'D', 'E', 'F', 'G', 'H', 'I', 'J', 'K', 'L', 'M',
   'N', 'O', 'P', 'Q', 'R', 'S', 'T', 'U', 'V', 'W', 'X', 'Y', 'Z',
   'a', 'b', 'c', 'd', 'e', 'f', 'g', 'h', 'i', 'j', 'k', 'l', 'm',
   'n', 'o', 'p', 'q', 'r', 's', 't', 'u', 'v', 'w', 'x', 'y', 'z',
   '0', '1', '2', '3', '4', '5', '6', '7', '8', '9', '+', '/']

/-- The base64 digit for a 6-bit value. -/
def b64Char (n : Nat) : Char := base64Alphabet.getD n 'A'

/-- The 6-bit value of a base64 digit. -/
def b64Index (c : Char) : Nat := base64Alphabet.indexOf c

/-- The `btoa` on a byte sequence: standard base64, three bytes to four digits,
`=`-padded. -/
def b64Encode : List Nat → List Char
  | [] => []
  | [b1] =>
    [b64Char (b1 / 4), b64Char (b1 % 4 * 16), '=', '=']
  | [b1, b2] =>
    [b64Char (b1 / 4), b64Char (b1 % 4 * 16 + b2 / 16),
     b64Char (b2 % 16 * 4), '=']
  | b1 :: b2 :: b3 :: rest =>
    b64Char (b1 / 4) :: b64Char (b1 % 4 * 16 + b2 / 16) ::
      b64Char (b2 % 16 * 4 + b3 / 64) :: b64Char (b3 % 64) ::
      b64Encode rest

/-- The `atob` on a base64 string: four digits back to three bytes, honouring
`=` padding. -/
def b64Decode : List Char → List Nat
  | c1 :: c2 :: c3 :: c4 :: rest =>
    let i1 := b64Index c1
    let i2 := b64Index c2
    if c3 = '=' then [i1 * 4 + i2 / 16]
    else
      let i3 := b64Index c3
      if c4 = '=' then [i1 * 4 + i2 / 16, i2 % 16 * 16 + i3 / 4]
      else
        (i1 * 4 + i2 / 16) :: (i2 % 16 * 16 + i3 / 4) ::
          (i3 % 4 * 64 + b64Index c4) :: b64Decode rest
  | _ => []

/-- The clamp `Math.max(-1, Math.min(1, sample))` in `convertToPCM16`. -/
def clampSample (x : ℚ) : ℚ := max (-1) (min 1 x)

/-- One sample of `convertToPCM16`: clamp, scale (`0x8000` for negative,
`0x7FFF` otherwise), truncate toward zero as `DataView.setInt16` does. -/
def sampleToPCM (x : ℚ) : Int :=
  let s := clampSample x
  if s < 0 then ⌈s * 32768⌉ else ⌊s * 32767⌋

/-- The `DataView.setInt16(·, ·, true)`: two's complement, little-endian bytes
`[low, high]`. -/
def int16ToBytes (v : Int) : List Nat :=
  let u := (v % 65536).toNat
  [u % 256, u / 256]

/-- The `DataView.getInt16(·, true)` on the byte pair `[lo, hi]`. -/
def bytesToInt16 (lo hi : Nat) : Int :=
  let u := lo + 256 * hi
  if 32768 ≤ u then (u : Int) - 65536 else (u : Int)

/-- The `convertToPCM16` from `useRealTimeAudio.ts`: per-sample PCM16 encoding,
packed little-endian, base64-encoded. (The 32 KB chunking of the
`String.fromCharCode` calls only works around a call-stack limit and does not
change the produced string.) -/
def convertToPCM16 (samples : List ℚ) : List Char :=
  b64Encode (samples.flatMap (fun x => int16ToBytes (sampleToPCM x)))

/-- One sample of `decodeAudioData`:
`sample / (sample < 0 ? 0x8000 : 0x7FFF)`. -/
def pcmToSample (v : Int) : ℚ :=
  (v : ℚ) / (if v < 0 then 32768 else 32767)

/-- The sample-reconstruction loop of `decodeAudioData`: walk the byte array
two bytes at a time (a trailing odd byte is dropped, as the
`byteLength / 2`-sized buffer does). -/
def bytesToSamples : List Nat → List ℚ
  | lo :: hi :: rest => pcmToSample (bytesToInt16 lo hi) :: bytesToSamples rest
  | _ => []

/-- The `decodeAudioData` from `useAudioPlayer.ts`: base64-decode and read
16-bit little-endian samples, scaled back to floats. -/
def decodeAudioData (base64Audio : List Char) : List ℚ :=
  bytesToSamples (b64Decode base64Audio)

/-- A concrete event run of `handleOpenAIEvent`, starting from the empty
hook state: an assistant output item is announced. -/
def c3Step1 : MsgState :=
  handleOpenAIEvent ⟨[], false, none, 0⟩
    (.outputItemAdded (some ("assistant")) (some ("item_1")) (some ("resp_1")))

/-- Next, `response.text.done` completes the message. -/
def c3Step2 : MsgState := handleOpenAIEvent c3Step1 (.textDone (some ("Hello")))

/-- Finally, a late `response.text.delta` arrives after the done event. -/
def c3Step3 : MsgState := handleOpenAIEvent c3Step2 (.textDelta (some ("!")))

/-! Section: Theorems -/

/-- C1 (amended): the `onclose` handler schedules a reconnection attempt if
and only if the closure was not manual, the attempt counter is below the
maximum, and the close code is not one of the codes the hook actually treats
as permanent — 1002 (protocol error), 1003 (unsupported data), 1005 (no
status). The policy-violation code 1008 is not among them, so a 1008 close
does schedule a reconnect (see the counterexample). -/
theorem c1_reconnect_guard (s : WSHookState) (code : Nat) :
    (wsOnClose s code).connectionStatus = WSStatus.reconnecting ↔
      (s.isManualDisconnect = false ∧ s.reconnectAttempts < RECONNECT_ATTEMPTS ∧
        code ∉ permanentErrorCodes) := by
  unfold wsOnClose shouldReconnect
  by_cases h1 : s.isManualDisconnect <;>
    by_cases h2 : s.reconnectAttempts < RECONNECT_ATTEMPTS <;>
      by_cases h3 : code ∈ permanentErrorCodes <;>
        simp [h1, h2, h3, List.contains, List.elem_eq_mem] <;>
          split <;> simp_all

/-- C1 counterexample: a non-manual close with the policy-violation code 1008
and a fresh attempt counter does schedule a reconnect (entering the
`reconnecting` state with a 2000 ms backoff), refuting the clause that a close
with the policy-violation code never schedules a reconnect. -/
theorem c1_policy_violation_schedules :
    (wsOnClose ⟨.connected, 0, false, none, none⟩ 1008).connectionStatus
        = WSStatus.reconnecting
      ∧ (wsOnClose ⟨.connected, 0, false, none, none⟩ 1008).pendingReconnectDelay
        = some 2000 := by
  constructor <;> rfl

/-- C1 witness: instantiating the guard equivalence at a concrete non-manual,
in-budget close with code 1000. -/
theorem c1_reconnect_guard_witness :
    (wsOnClose ⟨.connected, 2, false, none, none⟩ 1000).connectionStatus
        = WSStatus.reconnecting
      ↔ ((false : Bool) = false ∧ 2 < RECONNECT_ATTEMPTS ∧
          1000 ∉ permanentErrorCodes) :=
  c1_reconnect_guard ⟨.connected, 2, false, none, none⟩ 1000

/-- C4: for every reconnection attempt number `n` from 1 to the maximum, when
the `onclose` handler schedules attempt `n` (counter at `n - 1`, non-manual,
non-permanent code) the computed backoff delay equals
`min(RECONNECT_INTERVAL * 2^(n-1), 30000)`; and a successful open resets the
attempt counter to 0. -/
theorem c4_backoff_formula (s : WSHookState) (code n : Nat) (t : WSHookState)
    (h1 : 1 ≤ n) (h2 : n ≤ RECONNECT_ATTEMPTS)
    (h3 : s.reconnectAttempts = n - 1)
    (h4 : s.isManualDisconnect = false)
    (h5 : code ∉ permanentErrorCodes) :
    (wsOnClose s code).pendingReconnectDelay
        = some (min (RECONNECT_INTERVAL * 2 ^ (n - 1)) 30000)
      ∧ (wsOnOpen t).reconnectAttempts = 0 := by
  have hsr : shouldReconnect s code = true := by
    unfold shouldReconnect
    have hlt : s.reconnectAttempts < RECONNECT_ATTEMPTS := by
      unfold RECONNECT_ATTEMPTS at h2 ⊢
      omega
    simp [h4, hlt, List.contains, List.elem_eq_mem, h5]
  refine ⟨?_, rfl⟩
  unfold wsOnClose
  rw [if_pos hsr]
  have : s.reconnectAttempts + 1 - 1 = n - 1 := by omega
  simp [this]

/-- C4 witness: the fifth attempt is scheduled with the capped 30000 ms
delay, and an open resets the counter. -/
theorem c4_backoff_formula_witness :
    (wsOnClose ⟨.connected, 4, false, none, none⟩ 1000).pendingReconnectDelay
        = some (min (RECONNECT_INTERVAL * 2 ^ (5 - 1)) 30000)
      ∧ (wsOnOpen ⟨.reconnecting, 3, false, none, some 2000⟩).reconnectAttempts
        = 0 :=
  c4_backoff_formula ⟨.connected, 4, false, none, none⟩ 1000 5
    ⟨.reconnecting, 3, false, none, some 2000⟩
    (by decide) (by decide) rfl rfl (by decide)

/-- C8: `stopCapture` on the capture pipeline and `disconnect` on the
upstream realtime client are idempotent: a second consecutive call leaves the
state exactly as after the first, and (both being total transitions whose
second run takes the early-return branch) throws nothing. -/
theorem c8_stop_disconnect_idempotent (s : CaptureState)
    (t : RealtimeClientState) :
    stopCapture (stopCapture s) = stopCapture s
      ∧ disconnect (disconnect t) = disconnect t := by
  constructor
  · unfold stopCapture cleanup
    by_cases h : s.audioState = AudioState.capturing <;> simp [h]
  · unfold disconnect
    by_cases h : t.ws <;> simp [h]

/-- After `endSession sid`, the registry no longer resolves `sid`. -/
theorem lookupSession_endSession (svc : SessionService) (sid : Nat) :
    lookupSession (endSession svc sid) sid = none := by
  unfold lookupSession endSession
  simp only [Option.map_eq_none', List.find?_eq_none, List.mem_filter]
  intro p hp
  simpa using hp.2

/-- C6: `getSession` never returns an expired session; when the stored session
is expired it returns `null` and removes the entry from the registry, and when
it is not expired it returns the stored session with the registry unchanged. -/
theorem c6_get_session (svc : SessionService) (now sid : Nat) :
    (∀ s, lookupSession svc sid = some s →
      (isSessionExpired now s = true →
        (getSession svc now sid).1 = none
          ∧ lookupSession (getSession svc now sid).2 sid = none)
      ∧ (isSessionExpired now s = false →
        getSession svc now sid = (some s, svc)))
    ∧ (∀ s, (getSession svc now sid).1 = some s →
        lookupSession svc sid = some s ∧ isSessionExpired now s = false) := by
  constructor
  · intro s hs
    constructor
    · intro hexp
      simp only [getSession, hs, hexp, if_true]
      exact ⟨trivial, lookupSession_endSession svc sid⟩
    · intro hnexp
      simp [getSession, hs, hnexp]
  · intro s hret
    unfold getSession at hret
    cases hlook : lookupSession svc sid with
    | none => rw [hlook] at hret; simp at hret
    | some s0 =>
      rw [hlook] at hret
      by_cases hexp : isSessionExpired now s0 = true
      · simp [hexp] at hret
      · simp only [hexp, if_false, Bool.false_eq_true, ite_false,
          Option.some.injEq] at hret
        refine ⟨congrArg some hret, ?_⟩
        rw [← hret]
        simpa using hexp

/-- C6 witness: a session idle for just over the timeout is removed and
unreachable; one at exactly the timeout is returned unchanged. -/
theorem c6_get_session_witness :
    ((∀ s, lookupSession ⟨[(0, ⟨0, "u", "c", 0, 0⟩)], 1⟩ 0 = some s →
      (isSessionExpired (sessionTimeout + 1) s = true →
        (getSession ⟨[(0, ⟨0, "u", "c", 0, 0⟩)], 1⟩ (sessionTimeout + 1) 0).1 = none
          ∧ lookupSession
              (getSession ⟨[(0, ⟨0, "u", "c", 0, 0⟩)], 1⟩ (sessionTimeout + 1) 0).2 0
            = none)
      ∧ (isSessionExpired (sessionTimeout + 1) s = false →
        getSession ⟨[(0, ⟨0, "u", "c", 0, 0⟩)], 1⟩ (sessionTimeout + 1) 0
          = (some s, ⟨[(0, ⟨0, "u", "c", 0, 0⟩)], 1⟩)))
    ∧ (∀ s, (getSession ⟨[(0, ⟨0, "u", "c", 0, 0⟩)], 1⟩ (sessionTimeout + 1) 0).1 = some s →
        lookupSession ⟨[(0, ⟨0, "u", "c", 0, 0⟩)], 1⟩ 0 = some s
          ∧ isSessionExpired (sessionTimeout + 1) s = false)) :=
  c6_get_session ⟨[(0, ⟨0, "u", "c", 0, 0⟩)], 1⟩ (sessionTimeout + 1) 0

/-- C7: a frame that is not valid JSON draws exactly the error reply
`Invalid message format`, and a well-formed frame whose type is none of the
recognized server (`ping`), proxy (`openai_event`) or legacy types draws
exactly `Unknown message type: <type>`; in both cases the connection is not
closed and the session is not ended. -/
theorem c7_malformed_and_unknown (up : Bool) (ty : String)
    (payload : Option ClientPayload)
    (h : ty ∉ ["ping", "openai_event", "text_message", "audio_data",
               "audio_commit", "audio_clear"]) :
    ((handleMessage up .malformed).replies = [.errorMsg ("Invalid message format")]
      ∧ (handleMessage up .malformed).closed = false
      ∧ (handleMessage up .malformed).sessionEnded = false)
    ∧ ((handleMessage up (.frame ty payload)).replies
        = [.errorMsg ("Unknown message type: " ++ ty)]
      ∧ (handleMessage up (.frame ty payload)).closed = false
      ∧ (handleMessage up (.frame ty payload)).sessionEnded = false) := by
  simp only [List.mem_cons, List.not_mem_nil, or_false, not_or] at h
  obtain ⟨h1, h2, h3, h4, h5, h6⟩ := h
  refine ⟨⟨rfl, rfl, rfl⟩, ?_⟩
  unfold handleMessage handleLegacyMessage
  simp [h1, h2, h3, h4, h5, h6]

/-- C7 witness: a concrete unrecognized type `bogus`. -/
theorem c7_malformed_and_unknown_witness :
    ((handleMessage true .malformed).replies = [.errorMsg ("Invalid message format")]
      ∧ (handleMessage true .malformed).closed = false
      ∧ (handleMessage true .malformed).sessionEnded = false)
    ∧ ((handleMessage true (.frame ("bogus") none)).replies
        = [.errorMsg ("Unknown message type: " ++ "bogus")]
      ∧ (handleMessage true (.frame ("bogus") none)).closed = false
      ∧ (handleMessage true (.frame ("bogus") none)).sessionEnded = false) :=
  c7_malformed_and_unknown true ("bogus") none (by decide)

/-- C10: when the upstream link is not connected, forwarding a well-formed
`openai_event` frame with a payload makes `sendEvent` throw, and the handler
replies with exactly the `Invalid message format` error frame used for
malformed JSON — the two failure modes are indistinguishable by the reply —
and the connection stays open and the session alive. -/
theorem c10_forwarding_failure_reply (p : ClientPayload) :
    handleMessage false (.frame ("openai_event") (some p))
        = { replies := [.errorMsg ("Invalid message format")], forwarded := [],
            closed := false, sessionEnded := false, activityTouched := true }
      ∧ (handleMessage false (.frame ("openai_event") (some p))).replies
        = (handleMessage false .malformed).replies := by
  constructor <;> rfl

/-- C2 counterexample: running the connection flow on an empty server with an
upstream-connect failure sends the error frame and closes with 1011, yet the
session created for the connection is still resolvable in the registry
afterwards — the registry entry survives the failure, refuting the cleanup
part of the claim. -/
theorem c2_session_survives_counterexample :
    (handleConnectionFlow ⟨⟨[], 0⟩, [], []⟩ 7 100 false).sentFrames
        = [.errorMsg ("Failed to initialize AI service")]
      ∧ (handleConnectionFlow ⟨⟨[], 0⟩, [], []⟩ 7 100 false).closeCode = some 1011
      ∧ lookupSession
          (handleConnectionFlow ⟨⟨[], 0⟩, [], []⟩ 7 100 false).state.sessionSvc 0
        = some ⟨0, "demo_user", "7", 100, 100⟩ :=
  ⟨rfl, rfl, rfl⟩

/-- C2 (amended): on upstream link construction failure the server sends the
error frame and closes the inbound connection with the internal-error code
1011, but no cleanup happens at that point: the session registry entry, the
upstream-service map entry and the connection context all survive, because the
`close` handler that performs cleanup is registered only after a successful
upstream connect. (The leaked session is only removed later by the periodic
expiry sweep.) -/
theorem c2_setup_failure_behaviour (st : ServerState) (connId : Nat)
    (ctx : ConnectionContext) (s : Session)
    (h : lookupSession st.sessionSvc ctx.sessionId = some s) :
    (setupAuthenticatedConnection st connId ctx false).sentFrames
        = [.errorMsg ("Failed to initialize AI service")]
      ∧ (setupAuthenticatedConnection st connId ctx false).closeCode = some 1011
      ∧ (setupAuthenticatedConnection st connId ctx false).handlersRegistered = false
      ∧ lookupSession
          (setupAuthenticatedConnection st connId ctx false).state.sessionSvc
          ctx.sessionId = some s
      ∧ ctx.sessionId ∈
          (setupAuthenticatedConnection st connId ctx false).state.openaiServices
      ∧ (connId, ctx) ∈
          (setupAuthenticatedConnection st connId ctx false).state.connectionContexts := by
  refine ⟨rfl, rfl, rfl, h, ?_, ?_⟩
  · unfold setupAuthenticatedConnection
    simp
  · unfold setupAuthenticatedConnection
    simp

/-- C2 witness: the amended behaviour at a concrete one-session server
state. -/
theorem c2_setup_failure_behaviour_witness :
    (setupAuthenticatedConnection
        ⟨⟨[(0, ⟨0, "demo_user", "7", 100, 100⟩)], 1⟩, [], []⟩ 7
        ⟨0, "demo_user", false⟩ false).sentFrames
        = [.errorMsg ("Failed to initialize AI service")]
      ∧ (setupAuthenticatedConnection
          ⟨⟨[(0, ⟨0, "demo_user", "7", 100, 100⟩)], 1⟩, [], []⟩ 7
          ⟨0, "demo_user", false⟩ false).closeCode = some 1011
      ∧ (setupAuthenticatedConnection
          ⟨⟨[(0, ⟨0, "demo_user", "7", 100, 100⟩)], 1⟩, [], []⟩ 7
          ⟨0, "demo_user", false⟩ false).handlersRegistered = false
      ∧ lookupSession
          (setupAuthenticatedConnection
            ⟨⟨[(0, ⟨0, "demo_user", "7", 100, 100⟩)], 1⟩, [], []⟩ 7
            ⟨0, "demo_user", false⟩ false).state.sessionSvc 0
        = some ⟨0, "demo_user", "7", 100, 100⟩
      ∧ (0 : Nat) ∈
          (setupAuthenticatedConnection
            ⟨⟨[(0, ⟨0, "demo_user", "7", 100, 100⟩)], 1⟩, [], []⟩ 7
            ⟨0, "demo_user", false⟩ false).state.openaiServices
      ∧ ((7 : Nat), (⟨0, "demo_user", false⟩ : ConnectionContext)) ∈
          (setupAuthenticatedConnection
            ⟨⟨[(0, ⟨0, "demo_user", "7", 100, 100⟩)], 1⟩, [], []⟩ 7
            ⟨0, "demo_user", false⟩ false).state.connectionContexts :=
  c2_setup_failure_behaviour
    ⟨⟨[(0, ⟨0, "demo_user", "7", 100, 100⟩)], 1⟩, [], []⟩ 7
    ⟨0, "demo_user", false⟩ ⟨0, "demo_user", "7", 100, 100⟩ rfl

/-- The `updateMessage` changes the status at position `i` exactly when the id at
`i` matches: a pointwise description of the `messages.map` it performs. -/
theorem statusAt_updateMessage (st : MsgState) (mid : Nat) (nc : Option String)
    (ns : Option MsgStatus) (i : Nat) :
    statusAt (updateMessage st mid nc ns) i
      = (st.messages[i]?).map
          (fun m => if m.id == mid then ns.getD m.status else m.status) := by
  unfold statusAt updateMessage
  simp only [List.getElem?_map, Option.map_map]
  cases st.messages[i]? with
  | none => rfl
  | some m =>
    simp only [Option.map_some', Function.comp_apply]
    split <;> simp

/-- C9: `sendTextMessage` validation. When the trimmed text is empty or the
raw text exceeds 1000 characters, the hook state is unchanged, no
`sendWebSocketMessage` call is made and no message is appended — the trace is
error-callback-only; otherwise the very first action appends exactly one user
message with status `sending` whose content is the trimmed text, before any
send. -/
theorem c9_send_text_validation (st : MsgState) (ok1 ok2 : Bool)
    (text : String) :
    ((text.trim.isEmpty = true ∨ 1000 < text.length) →
      (sendTextMessage st ok1 ok2 text).1 = st
        ∧ (∀ a ∈ (sendTextMessage st ok1 ok2 text).2, isErrorCbAction a = true)
        ∧ (sendTextMessage st ok1 ok2 text).2.countP isAppendAction = 0
        ∧ (sendTextMessage st ok1 ok2 text).2.countP isSendAction = 0)
    ∧ (text.trim.isEmpty = false → text.length ≤ 1000 →
      ((sendTextMessage st ok1 ok2 text).2.head?
          = some (.appendMsg ⟨st.nextId, text.trim, .user, .sending⟩)
        ∧ (sendTextMessage st ok1 ok2 text).2.countP isAppendAction = 1)) := by
  constructor
  · intro hguard
    unfold sendTextMessage
    by_cases he : text.trim.isEmpty
    · simp [he, isErrorCbAction, isAppendAction, isSendAction]
    · have hlen : 1000 < text.length := by
        rcases hguard with hg | hg
        · exact absurd hg (by simp [he])
        · exact hg
      simp [he, hlen, isErrorCbAction, isAppendAction, isSendAction]
  · intro he hlen
    unfold sendTextMessage
    have hnl : ¬ (1000 < text.length) := by omega
    simp only [he, Bool.false_eq_true, if_false, hnl, ite_false]
    cases ok1 <;> cases ok2 <;>
      simp [isAppendAction, List.countP_cons, List.countP_nil]

/-- C9 witness: a three-character message on a fresh hook state. -/
theorem c9_send_text_validation_witness :
    ((("hi!" : String).trim.isEmpty = true ∨ 1000 < ("hi!" : String).length) →
      (sendTextMessage ⟨[], false, none, 0⟩ true true ("hi!")).1 = ⟨[], false, none, 0⟩
        ∧ (∀ a ∈ (sendTextMessage ⟨[], false, none, 0⟩ true true ("hi!")).2,
            isErrorCbAction a = true)
        ∧ (sendTextMessage ⟨[], false, none, 0⟩ true true ("hi!")).2.countP
            isAppendAction = 0
        ∧ (sendTextMessage ⟨[], false, none, 0⟩ true true ("hi!")).2.countP
            isSendAction = 0)
    ∧ (("hi!" : String).trim.isEmpty = false → ("hi!" : String).length ≤ 1000 →
      ((sendTextMessage ⟨[], false, none, 0⟩ true true ("hi!")).2.head?
          = some (.appendMsg ⟨0, ("hi!" : String).trim, .user, .sending⟩)
        ∧ (sendTextMessage ⟨[], false, none, 0⟩ true true ("hi!")).2.countP
            isAppendAction = 1)) :=
  c9_send_text_validation ⟨[], false, none, 0⟩ true true ("hi!")

/-- C3 counterexample: in a reachable run (assistant item announced, then
`response.text.done`, then a late `response.text.delta`), the message reaches
the terminal status `completed` and a subsequent event handler moves it back
to `receiving` — statuses do regress after `completed`, refuting the claim. -/
theorem c3_status_regression :
    statusAt c3Step2 0 = some .completed
      ∧ statusAt c3Step3 0 = some .receiving :=
  ⟨rfl, rfl⟩

/-- C3 (amended): a message whose status is `completed` keeps that status
under every event handler invocation, unless the streaming-response pointer
still references it; in that case a truthy text/transcript delta event moves
it back to `receiving` and an OpenAI `error` event moves it to `error` —
these are the only escapes from the terminal status. -/
theorem c3_terminal_status (st : MsgState) (e : OAIEvent) (i : Nat)
    (h : statusAt st i = some .completed) :
    (targetsCurrent st i = false →
      statusAt (handleOpenAIEvent st e) i = some .completed)
    ∧ (statusAt (handleOpenAIEvent st e) i = some .completed
       ∨ (isStreamingDelta e = true ∧ targetsCurrent st i = true
           ∧ statusAt (handleOpenAIEvent st e) i = some .receiving)
       ∨ (isErrorEvt e = true ∧ targetsCurrent st i = true
           ∧ statusAt (handleOpenAIEvent st e) i = some .msgError)) := by
  obtain ⟨m, hm, hms⟩ : ∃ m, st.messages[i]? = some m ∧ m.status = .completed := by
    unfold statusAt at h
    cases hm : st.messages[i]? with
    | none => rw [hm] at h; simp at h
    | some m =>
      rw [hm] at h
      simp only [Option.map_some', Option.some.injEq] at h
      exact ⟨m, rfl, h⟩
  have hlen : i < st.messages.length := by
    obtain ⟨hl, _⟩ := List.getElem?_eq_some_iff.mp hm
    exact hl
  cases e with
  | responseCreated =>
    refine ⟨fun _ => ?_, Or.inl ?_⟩ <;> simp [handleOpenAIEvent, statusAt, hm, hms]
  | outputItemAdded role itemId responseId =>
    by_cases hrole : (role == some ("assistant")) = true
    · have hafter :
          statusAt (handleOpenAIEvent st (.outputItemAdded role itemId responseId)) i
            = some .completed := by
        simp only [handleOpenAIEvent, hrole, if_true]
        simp [statusAt, addMessage, List.getElem?_append_left hlen, hm, hms]
      exact ⟨fun _ => hafter, Or.inl hafter⟩
    · refine ⟨fun _ => ?_, Or.inl ?_⟩ <;>
        simp [handleOpenAIEvent, hrole, statusAt, hm, hms]
  | textDelta d =>
    cases hc : st.currentAIResponse with
    | none =>
      refine ⟨fun _ => ?_, Or.inl ?_⟩ <;>
        simp [handleOpenAIEvent, hc, statusAt, hm, hms]
    | some c =>
      by_cases hd : strTruthy d = true
      · have htc : targetsCurrent st i = (m.id == c.id) := by
          simp [targetsCurrent, hc, hm]
        have hup :
            statusAt (handleOpenAIEvent st (.textDelta d)) i
              = some (if m.id == c.id then .receiving else m.status) := by
          simp only [handleOpenAIEvent, hc, hd, if_true]
          rw [statusAt_updateMessage]
          simp [hm]
        by_cases hid : (m.id == c.id) = true
        · refine ⟨fun hf => absurd hf ?_, Or.inr (Or.inl ⟨?_, ?_, ?_⟩)⟩
          · rw [htc, hid]; simp
          · simpa [isStreamingDelta] using hd
          · rw [htc, hid]
          · rw [hup]; simp [hid]
        · have hid' : (m.id == c.id) = false := by simpa using hid
          have hafter :
              statusAt (handleOpenAIEvent st (.textDelta d)) i = some .completed := by
            rw [hup, hid']; simp [hms]
          exact ⟨fun _ => hafter, Or.inl hafter⟩
      · have hd' : strTruthy d = false := by simpa using hd
        refine ⟨fun _ => ?_, Or.inl ?_⟩ <;>
          simp [handleOpenAIEvent, hc, hd', statusAt, hm, hms]
  | textDone t =>
    cases hc : st.currentAIResponse with
    | none =>
      refine ⟨fun _ => ?_, Or.inl ?_⟩ <;>
        simp [handleOpenAIEvent, hc, statusAt, hm, hms]
    | some c =>
      by_cases ht : strTruthy t = true
      · have hafter :
            statusAt (handleOpenAIEvent st (.textDone t)) i = some .completed := by
          simp only [handleOpenAIEvent, hc, ht, if_true]
          rw [statusAt_updateMessage]
          simp [hm, hms]
        exact ⟨fun _ => hafter, Or.inl hafter⟩
      · have ht' : strTruthy t = false := by simpa using ht
        refine ⟨fun _ => ?_, Or.inl ?_⟩ <;>
          simp [handleOpenAIEvent, hc, ht', statusAt, hm, hms]
  | audioDelta d =>
    refine ⟨fun _ => ?_, Or.inl ?_⟩ <;> simp [handleOpenAIEvent, statusAt, hm, hms]
  | audioDone =>
    refine ⟨fun _ => ?_, Or.inl ?_⟩ <;> simp [handleOpenAIEvent, statusAt, hm, hms]
  | transcriptDelta d =>
    cases hc : st.currentAIResponse with
    | none =>
      refine ⟨fun _ => ?_, Or.inl ?_⟩ <;>
        simp [handleOpenAIEvent, hc, statusAt, hm, hms]
    | some c =>
      by_cases hd : strTruthy d = true
      · have htc : targetsCurrent st i = (m.id == c.id) := by
          simp [targetsCurrent, hc, hm]
        have hup :
            statusAt (handleOpenAIEvent st (.transcriptDelta d)) i
              = some (if m.id == c.id then .receiving else m.status) := by
          simp only [handleOpenAIEvent, hc, hd, if_true]
          rw [statusAt_updateMessage]
          simp [hm]
        by_cases hid : (m.id == c.id) = true
        · refine ⟨fun hf => absurd hf ?_, Or.inr (Or.inl ⟨?_, ?_, ?_⟩)⟩
          · rw [htc, hid]; simp
          · simpa [isStreamingDelta] using hd
          · rw [htc, hid]
          · rw [hup]; simp [hid]
        · have hid' : (m.id == c.id) = false := by simpa using hid
          have hafter :
              statusAt (handleOpenAIEvent st (.transcriptDelta d)) i
                = some .completed := by
            rw [hup, hid']; simp [hms]
          exact ⟨fun _ => hafter, Or.inl hafter⟩
      · have hd' : strTruthy d = false := by simpa using hd
        refine ⟨fun _ => ?_, Or.inl ?_⟩ <;>
          simp [handleOpenAIEvent, hc, hd', statusAt, hm, hms]
  | transcriptDone t =>
    cases hc : st.currentAIResponse with
    | none =>
      refine ⟨fun _ => ?_, Or.inl ?_⟩ <;>
        simp [handleOpenAIEvent, hc, statusAt, hm, hms]
    | some c =>
      by_cases ht : strTruthy t = true
      · have hafter :
            statusAt (handleOpenAIEvent st (.transcriptDone t)) i
              = some .completed := by
          simp only [handleOpenAIEvent, hc, ht, if_true]
          rw [statusAt_updateMessage]
          simp [hm, hms]
        exact ⟨fun _ => hafter, Or.inl hafter⟩
      · have ht' : strTruthy t = false := by simpa using ht
        refine ⟨fun _ => ?_, Or.inl ?_⟩ <;>
          simp [handleOpenAIEvent, hc, ht', statusAt, hm, hms]
  | speechStarted =>
    refine ⟨fun _ => ?_, Or.inl ?_⟩ <;> simp [handleOpenAIEvent, statusAt, hm, hms]
  | speechStopped =>
    refine ⟨fun _ => ?_, Or.inl ?_⟩ <;> simp [handleOpenAIEvent, statusAt, hm, hms]
  | bufferCommitted =>
    refine ⟨fun _ => ?_, Or.inl ?_⟩ <;> simp [handleOpenAIEvent, statusAt, hm, hms]
  | bufferCleared =>
    refine ⟨fun _ => ?_, Or.inl ?_⟩ <;> simp [handleOpenAIEvent, statusAt, hm, hms]
  | responseDone =>
    cases hc : st.currentAIResponse with
    | none =>
      refine ⟨fun _ => ?_, Or.inl ?_⟩ <;>
        simp [handleOpenAIEvent, hc, statusAt, hm, hms]
    | some c =>
      have hafter :
          statusAt (handleOpenAIEvent st .responseDone) i = some .completed := by
        simp only [handleOpenAIEvent, hc]
        rw [statusAt_updateMessage]
        simp [hm, hms]
      exact ⟨fun _ => hafter, Or.inl hafter⟩
  | errorEvent msg =>
    cases hc : st.currentAIResponse with
    | none =>
      refine ⟨fun _ => ?_, Or.inl ?_⟩ <;>
        simp [handleOpenAIEvent, hc, statusAt, hm, hms]
    | some c =>
      have htc : targetsCurrent st i = (m.id == c.id) := by
        simp [targetsCurrent, hc, hm]
      have hup :
          statusAt (handleOpenAIEvent st (.errorEvent msg)) i
            = some (if m.id == c.id then .msgError else m.status) := by
        simp only [handleOpenAIEvent, hc]
        rw [statusAt_updateMessage]
        simp [hm]
      by_cases hid : (m.id == c.id) = true
      · refine ⟨fun hf => absurd hf ?_, Or.inr (Or.inr ⟨rfl, ?_, ?_⟩)⟩
        · rw [htc, hid]; simp
        · rw [htc, hid]
        · rw [hup]; simp [hid]
      · have hid' : (m.id == c.id) = false := by simpa using hid
        have hafter :
            statusAt (handleOpenAIEvent st (.errorEvent msg)) i
              = some .completed := by
          rw [hup, hid']; simp [hms]
        exact ⟨fun _ => hafter, Or.inl hafter⟩
  | rateLimitsUpdated =>
    refine ⟨fun _ => ?_, Or.inl ?_⟩ <;> simp [handleOpenAIEvent, statusAt, hm, hms]
  | sessionCreatedEvt =>
    refine ⟨fun _ => ?_, Or.inl ?_⟩ <;> simp [handleOpenAIEvent, statusAt, hm, hms]
  | sessionUpdatedEvt =>
    refine ⟨fun _ => ?_, Or.inl ?_⟩ <;> simp [handleOpenAIEvent, statusAt, hm, hms]
  | unknownEvt ty =>
    refine ⟨fun _ => ?_, Or.inl ?_⟩ <;> simp [handleOpenAIEvent, statusAt, hm, hms]

/-- C3 witness: the amended characterization applied to the concrete run at
the completed message, hit by a late delta event. -/
theorem c3_terminal_status_witness :
    (targetsCurrent c3Step2 0 = false →
      statusAt (handleOpenAIEvent c3Step2 (.textDelta (some ("!")))) 0
        = some .completed)
    ∧ (statusAt (handleOpenAIEvent c3Step2 (.textDelta (some ("!")))) 0
          = some .completed
       ∨ (isStreamingDelta (.textDelta (some ("!"))) = true
           ∧ targetsCurrent c3Step2 0 = true
           ∧ statusAt (handleOpenAIEvent c3Step2 (.textDelta (some ("!")))) 0
             = some .receiving)
       ∨ (isErrorEvt (.textDelta (some ("!"))) = true
           ∧ targetsCurrent c3Step2 0 = true
           ∧ statusAt (handleOpenAIEvent c3Step2 (.textDelta (some ("!")))) 0
             = some .msgError)) :=
  c3_terminal_status c3Step2 (.textDelta (some ("!"))) 0 rfl

/-- Decoding a base64 digit returns the encoded 6-bit value. -/
theorem b64Index_b64Char : ∀ n, n < 64 → b64Index (b64Char n) = n := by decide

/-- A base64 digit is never the padding character. -/
theorem b64Char_ne_pad : ∀ n, n < 64 → b64Char n ≠ '=' := by decide

/-- The `atob` inverts `btoa` on byte sequences. -/
theorem b64_roundtrip (bs : List Nat) (h : ∀ b ∈ bs, b < 256) :
    b64Decode (b64Encode bs) = bs := by
  induction bs using b64Encode.induct with
  | case1 => rfl
  | case2 b1 =>
    have hb1 : b1 < 256 := h b1 (by simp)
    have h1 : b1 / 4 < 64 := by omega
    have h2 : b1 % 4 * 16 < 64 := by omega
    unfold b64Encode b64Decode
    rw [if_pos rfl, b64Index_b64Char _ h1, b64Index_b64Char _ h2]
    congr 1
    omega
  | case3 b1 b2 =>
    have hb1 : b1 < 256 := h b1 (by simp)
    have hb2 : b2 < 256 := h b2 (by simp)
    have h1 : b1 / 4 < 64 := by omega
    have h2 : b1 % 4 * 16 + b2 / 16 < 64 := by omega
    have h3 : b2 % 16 * 4 < 64 := by omega
    unfold b64Encode b64Decode
    rw [if_neg (b64Char_ne_pad _ h3), if_pos rfl,
      b64Index_b64Char _ h1, b64Index_b64Char _ h2, b64Index_b64Char _ h3]
    congr 1
    · omega
    congr 1
    omega
  | case4 b1 b2 b3 rest ih =>
    have hb1 : b1 < 256 := h b1 (by simp)
    have hb2 : b2 < 256 := h b2 (by simp)
    have hb3 : b3 < 256 := h b3 (by simp)
    have hrest : ∀ b ∈ rest, b < 256 := fun b hb => h b (by simp [hb])
    have h1 : b1 / 4 < 64 := by omega
    have h2 : b1 % 4 * 16 + b2 / 16 < 64 := by omega
    have h3 : b2 % 16 * 4 + b3 / 64 < 64 := by omega
    have h4 : b3 % 64 < 64 := by omega
    show b64Decode (b64Char (b1 / 4) :: b64Char (b1 % 4 * 16 + b2 / 16) ::
        b64Char (b2 % 16 * 4 + b3 / 64) :: b64Char (b3 % 64) :: b64Encode rest)
      = b1 :: b2 :: b3 :: rest
    unfold b64Decode
    rw [if_neg (b64Char_ne_pad _ h3), if_neg (b64Char_ne_pad _ h4),
      b64Index_b64Char _ h1, b64Index_b64Char _ h2, b64Index_b64Char _ h3,
      b64Index_b64Char _ h4, ih hrest]
    congr 1
    · omega
    congr 1
    · omega
    congr 1
    omega

/-- The `setInt16` produces bytes. -/
theorem int16ToBytes_lt (v : Int) : ∀ b ∈ int16ToBytes v, b < 256 := by
  unfold int16ToBytes
  intro b hb
  have h1 : 0 ≤ v % 65536 := Int.emod_nonneg v (by norm_num)
  have h2 : v % 65536 < 65536 := Int.emod_lt_of_pos v (by norm_num)
  simp only [List.mem_cons, List.not_mem_nil, or_false] at hb
  rcases hb with rfl | rfl <;> omega

/-- The `getInt16` inverts `setInt16` on the int16 range. -/
theorem bytesToInt16_int16ToBytes (v : Int) (h1 : -32768 ≤ v) (h2 : v < 32768) :
    bytesToInt16 ((v % 65536).toNat % 256) ((v % 65536).toNat / 256) = v := by
  simp only [bytesToInt16]
  split <;> omega

/-- Reading samples off a packed int16 (in range) followed by more bytes. -/
theorem bytesToSamples_int16 (v : Int) (h1 : -32768 ≤ v) (h2 : v < 32768)
    (rest : List Nat) :
    bytesToSamples (int16ToBytes v ++ rest)
      = pcmToSample v :: bytesToSamples rest := by
  show bytesToSamples ((v % 65536).toNat % 256 :: (v % 65536).toNat / 256 :: rest)
    = pcmToSample v :: bytesToSamples rest
  rw [bytesToSamples, bytesToInt16_int16ToBytes v h1 h2]

/-- The PCM value of any sample lies in the int16 range (the clamp guarantees
this for arbitrary inputs). -/
theorem sampleToPCM_range (x : ℚ) :
    -32768 ≤ sampleToPCM x ∧ sampleToPCM x ≤ 32767 := by
  simp only [sampleToPCM, clampSample]
  have hs1 : (-1 : ℚ) ≤ max (-1) (min 1 x) := le_max_left _ _
  have hs2 : max (-1) (min 1 x) ≤ 1 := max_le (by norm_num) (min_le_left _ _)
  split
  · rename_i hneg
    constructor
    · have hle : ((-32768 : Int) : ℚ) ≤ max (-1) (min 1 x) * 32768 := by
        push_cast
        nlinarith
      calc (-32768 : Int) = ⌈((-32768 : Int) : ℚ)⌉ := (Int.ceil_intCast _).symm
        _ ≤ ⌈max (-1) (min 1 x) * 32768⌉ := Int.ceil_le_ceil hle
    · have hle : max (-1) (min 1 x) * 32768 ≤ ((32767 : Int) : ℚ) := by
        push_cast
        nlinarith
      exact Int.ceil_le.mpr hle
  · rename_i hneg
    have h0 : (0 : ℚ) ≤ max (-1) (min 1 x) := not_lt.mp hneg
    constructor
    · have : (0 : Int) ≤ ⌊max (-1) (min 1 x) * 32767⌋ :=
        Int.floor_nonneg.mpr (by nlinarith)
      omega
    · have hle : max (-1) (min 1 x) * 32767 ≤ ((32767 : Int) : ℚ) := by
        push_cast
        nlinarith
      calc ⌊max (-1) (min 1 x) * 32767⌋ ≤ ⌊((32767 : Int) : ℚ)⌋ :=
            Int.floor_le_floor hle
        _ = 32767 := Int.floor_intCast _

/-- Decoding an encoded in-range sample reproduces it to within one PCM16
quantization step (at most `1/32767`). -/
theorem pcm_roundtrip_close (x : ℚ) (hx1 : -1 ≤ x) (hx2 : x ≤ 1) :
    |pcmToSample (sampleToPCM x) - x| ≤ 1 / 32767 := by
  have hcl : clampSample x = x := by
    unfold clampSample
    rw [min_eq_right hx2, max_eq_right hx1]
  unfold pcmToSample sampleToPCM
  rw [hcl]
  by_cases hneg : x < 0
  · rw [if_pos hneg]
    have hle : x * 32768 ≤ (⌈x * 32768⌉ : ℚ) := Int.le_ceil _
    have hlt : ((⌈x * 32768⌉ : Int) : ℚ) < x * 32768 + 1 := Int.ceil_lt_add_one _
    by_cases hpc : (⌈x * 32768⌉ : Int) < 0
    · rw [if_pos hpc]
      rw [abs_le]
      constructor <;> push_cast <;> linarith
    · rw [if_neg hpc]
      have hceil0 : (⌈x * 32768⌉ : Int) = 0 := by
        have hnp : ⌈x * 32768⌉ ≤ (0 : Int) := Int.ceil_le.mpr (by push_cast; nlinarith)
        omega
      rw [hceil0]
      rw [abs_le]
      rw [hceil0] at hlt
      constructor <;> push_cast at hlt ⊢ <;> linarith
  · rw [if_neg hneg]
    have h0 : (0 : ℚ) ≤ x := not_lt.mp hneg
    have hfl : ((⌊x * 32767⌋ : Int) : ℚ) ≤ x * 32767 := Int.floor_le _
    have hfg : x * 32767 - 1 < ((⌊x * 32767⌋ : Int) : ℚ) := Int.sub_one_lt_floor _
    have hge : (0 : Int) ≤ ⌊x * 32767⌋ := Int.floor_nonneg.mpr (by nlinarith)
    rw [if_neg (by omega : ¬ (⌊x * 32767⌋ : Int) < 0)]
    rw [abs_le]
    constructor <;> push_cast <;> linarith

/-- Unpacking the concatenated per-sample byte pairs recovers the per-sample
quantized values. -/
theorem bytesToSamples_flatMap (xs : List ℚ) :
    bytesToSamples (xs.flatMap (fun x => int16ToBytes (sampleToPCM x)))
      = xs.map (fun x => pcmToSample (sampleToPCM x)) := by
  induction xs with
  | nil => rfl
  | cons x xs ih =>
    rw [List.flatMap_cons, List.map_cons]
    obtain ⟨hr1, hr2⟩ := sampleToPCM_range x
    rw [bytesToSamples_int16 _ hr1 (by omega), ih]

/-- C5: for every finite sequence of samples in `[-1, 1]`, encoding with the
capture-side PCM16 converter (`convertToPCM16`: clamp, scale to signed 16-bit
little-endian, base64-encode) and decoding with the playback-side decoder
(`decodeAudioData`: base64-decode, read 16-bit little-endian, divide by the
matching scale factor) reproduces the original sequence element-by-element to
within integer rounding error (at most one quantization step, `1/32767`). -/
theorem c5_pcm16_roundtrip (xs : List ℚ) (h : ∀ x ∈ xs, -1 ≤ x ∧ x ≤ 1) :
    List.Forall₂ (fun y x => |y - x| ≤ 1 / 32767)
      (decodeAudioData (convertToPCM16 xs)) xs := by
  unfold decodeAudioData convertToPCM16
  rw [b64_roundtrip _ (by
    intro b hb
    rw [List.mem_flatMap] at hb
    obtain ⟨x, _, hbx⟩ := hb
    exact int16ToBytes_lt _ b hbx)]
  rw [bytesToSamples_flatMap]
  induction xs with
  | nil => exact List.Forall₂.nil
  | cons x xs ih =>
    rw [List.map_cons]
    obtain ⟨hx1, hx2⟩ := h x (by simp)
    exact List.Forall₂.cons (pcm_roundtrip_close x hx1 hx2)
      (ih (fun y hy => h y (by simp [hy])))

/-- C5 witness: the round trip at a concrete five-sample chunk. -/
theorem c5_pcm16_roundtrip_witness :
    (∀ x ∈ [(1 : ℚ), -1, 1/2, -1/3, 0], -1 ≤ x ∧ x ≤ 1)
      ∧ List.Forall₂ (fun y x => |y - x| ≤ 1 / 32767)
          (decodeAudioData (convertToPCM16 [(1 : ℚ), -1, 1/2, -1/3, 0]))
          [(1 : ℚ), -1, 1/2, -1/3, 0] :=
  ⟨by
    intro x hx
    simp only [List.mem_cons, List.not_mem_nil, or_false] at hx
    rcases hx with rfl | rfl | rfl | rfl | rfl <;> norm_num,
   c5_pcm16_roundtrip [(1 : ℚ), -1, 1/2, -1/3, 0] (by
    intro x hx
    simp only [List.mem_cons, List.not_mem_nil, or_false] at hx
    rcases hx with rfl | rfl | rfl | rfl | rfl <;> norm_num)⟩

end Smriti
